import Mathlib

/-!
Shallow embedding of the labjack Modbus-TCP client library (bennjii/labjack)
and proofs about the claims of its specification.

Byte strings are modelled as `List Nat` with entries < 256; machine integers
are `Nat`/`Int` with explicit `% 2 ^ w` where Rust would wrap or truncate.
Fallible Rust functions return `Except`/`Option`; a Rust panic
(`unimplemented` arms, non-exhaustive matches) is modelled as `Option.none`
on an outer `Option` layer.
-/

namespace Labjack

/-! ## Byte-level helpers (big-endian codecs, `to_be_bytes` / `from_be_bytes`) -/

/-- Big-endian bytes of a `u16` (`u16::to_be_bytes`). -/
def be16 (n : Nat) : List Nat := [n / 256 % 256, n % 256]

/-- Big-endian bytes of a `u32` (`u32::to_be_bytes`). -/
def be32 (n : Nat) : List Nat :=
  [n / 16777216 % 256, n / 65536 % 256, n / 256 % 256, n % 256]

/-- Big-endian bytes of a `u64` (`u64::to_be_bytes`). -/
def be64 (n : Nat) : List Nat :=
  [n / 72057594037927936 % 256, n / 281474976710656 % 256,
   n / 1099511627776 % 256, n / 4294967296 % 256,
   n / 16777216 % 256, n / 65536 % 256, n / 256 % 256, n % 256]

/-- Two's complement `u32` image of an `i32` value (`x as u32`). -/
def int32ToU32 (x : Int) : Nat := (x % 4294967296).toNat

/-- Signed big-endian interpretation of four bytes (`i32::from_be_bytes`). -/
def i32FromBeBytes (a b c d : Nat) : Int :=
  let n : Nat := ((a * 256 + b) * 256 + c) * 256 + d
  if n < 2147483648 then (n : Int) else (n : Int) - 4294967296

/-- Rust slice indexing `buf.get(i..j)`: `Some` exactly when `i ≤ j ≤ len`. -/
def listSlice (l : List Nat) (i j : Nat) : Option (List Nat) :=
  if i ≤ j ∧ j ≤ l.length then some ((l.drop i).take (j - i)) else none

/-! ## Data-type matrix (`src/core/func.rs`) -/

/-- `LabJackDataType` from `src/core/func.rs`. -/
inductive LabJackDataType
  | Uint16
  | Uint32
  | Int32
  | Float32
  | Uint64
  | String
  | Byte
deriving DecidableEq, Repr

/-- `LabJackDataType::size` from `src/core/func.rs` lines 148-155:
`Uint16 => 1`, every other variant `=> 2`. -/
def LabJackDataType.size : LabJackDataType → Nat
  | .Uint16 => 1
  | _ => 2

/-- `size_of` from `build.rs` lines 179-189 (keyed by the decoded type name;
any other name panics, modelled as `none`). -/
def buildSizeOf (dataType : String) : Option Nat :=
  match dataType with
  | "Byte" => some 1
  | "Uint16" => some 1
  | "Float32" => some 2
  | "Uint32" => some 2
  | "Int32" => some 2
  | "Uint64" => some 4
  | _ => none

/-- `LabJackDataValue` from `src/core/func.rs`. The `Float32` and `String`
payloads are IEEE-754 binary32 values carried by their bit pattern
(a `Nat < 2 ^ 32`); all arithmetic done on them by the embedded code is
explicit in the definitions below. -/
inductive LabJackDataValue
  | uint16 (v : Nat)
  | uint32 (v : Nat)
  | uint64 (v : Nat)
  | int32 (v : Int)
  | float32 (bits : Nat)
  | byte (v : Nat)
  | string (bits : Nat)
deriving DecidableEq, Repr

/-- `LabJackDataValue::type` from `src/core/func.rs` lines 187-197. -/
def LabJackDataValue.type : LabJackDataValue → LabJackDataType
  | .uint16 _ => .Uint16
  | .uint32 _ => .Uint32
  | .uint64 _ => .Uint64
  | .int32 _ => .Int32
  | .float32 _ => .Float32
  | .byte _ => .Byte
  | .string _ => .String

/-- Big-endian serialization of a value, variant by variant, as produced by
`DataType::bytes` (`value.to_be_bytes().to_vec()`, `impl_traits` macro in
`src/core/func.rs` lines 46-56). The source has no `bytes` implementation
for the `String` variant (the macro does not cover it), so that case is
`none`. -/
def valueBytes : LabJackDataValue → Option (List Nat)
  | .uint16 v => some (be16 v)
  | .uint32 v => some (be32 v)
  | .uint64 v => some (be64 v)
  | .int32 v => some (be32 (int32ToU32 v))
  | .float32 bits => some (be32 bits)
  | .byte v => some [v % 256]
  | .string _ => none

/-! ## Error taxonomy (`src/core/modbus/error.rs`) -/

/-- `ExceptionCode` from `src/core/modbus/error.rs` lines 3-19. -/
inductive ExceptionCode
  | illegalFunction
  | illegalDataAddress
  | illegalDataValue
  | slaveOrServerFailure
  | acknowledge
  | slaveOrServerBusy
  | negativeAcknowledge
  | memoryParity
  | notDefined
  | gatewayPath
  | gatewayTarget
deriving DecidableEq, Repr

/-- `ExceptionCode::from_u8` (derived by `enum_from_primitive`): defined on
`0x01..=0x0B`, `none` elsewhere. -/
def ExceptionCode.fromU8 (n : Nat) : Option ExceptionCode :=
  match n with
  | 1 => some .illegalFunction
  | 2 => some .illegalDataAddress
  | 3 => some .illegalDataValue
  | 4 => some .slaveOrServerFailure
  | 5 => some .acknowledge
  | 6 => some .slaveOrServerBusy
  | 7 => some .negativeAcknowledge
  | 8 => some .memoryParity
  | 9 => some .notDefined
  | 10 => some .gatewayPath
  | 11 => some .gatewayTarget
  | _ => none

/-- `Reason` from `src/core/modbus/error.rs`. -/
inductive Reason
  | unexpectedReplySize
  | bytecountNotEven
  | sendBufferEmpty
  | recvBufferEmpty
  | sendBufferTooBig
  | decodingError
  | encodingError
  | invalidByteorder
  | registerMismatch
deriving DecidableEq, Repr

/-- `QueueError` variants used by the TCP transport and the topic buffer. -/
inductive QueueError
  | frameSizeTooLarge
  | queueEmptyWhenRead
  | tooManyInFlight
  | cancelled
deriving DecidableEq, Repr

/-- `Error` from `src/core/modbus/error.rs` (with the `Queue` variant used by
the async transport). The `Io` payload is irrelevant to the claims and is
dropped. -/
inductive Error
  | exception (code : ExceptionCode)
  | io
  | invalidResponse
  | invalidData (reason : Reason)
  | invalidFunction
  | parseCoilError
  | parseInfoError
  | deviceNotFound
  | queue (inner : QueueError)
deriving DecidableEq, Repr

/-! ## Value codec (`src/core/func.rs` lines 204-247) -/

/-- The `be_value` step of `LabJackDataValue::decode_bytes`: a length-2 slice
is read as a big-endian `u16`, a length-4 slice as a big-endian `u32`, any
other length yields `None`; the `u16`/`u32` is then widened to `f64`, which
is exact, so the intermediate is carried as a `Nat`. -/
def decodeBytesNat (bytes : List Nat) : Option Nat :=
  match bytes with
  | [a, b] => some (a * 256 + b)
  | [a, b, c, d] => some (((a * 256 + b) * 256 + c) * 256 + d)
  | _ => none

/-- Floor of the base-2 logarithm, for arguments below `2 ^ 39`. -/
def floorLog2 (n : Nat) : Nat :=
  (List.range 40).foldl (fun acc i => if 2 ^ i ≤ n then i else acc) 0

/-- IEEE-754 binary32 bit pattern of the float nearest to `n` (round to
nearest, ties to even), for `n < 2 ^ 32`. This is the numeric Rust cast
`n as f32` applied by `num`'s `FromPrimitive::from_f64` for `f32` after the
exact `u32 → f64` widening in `decode_bytes`. -/
def f32FromNat (n : Nat) : Nat :=
  if n = 0 then 0
  else
    let k := floorLog2 n
    if k ≤ 23 then
      (k + 127) * 2 ^ 23 + (n - 2 ^ k) * 2 ^ (23 - k)
    else
      let shift := k - 23
      let q := n / 2 ^ shift
      let r := n % 2 ^ shift
      let half := 2 ^ (shift - 1)
      let rounded := if half < r ∨ (r = half ∧ q % 2 = 1) then q + 1 else q
      if rounded = 2 ^ 24 then (k + 128) * 2 ^ 23
      else (k + 127) * 2 ^ 23 + (rounded - 2 ^ 23)

/-- `T::from_f64` (num `FromPrimitive`) at an exact integer argument, per
target type: bounded integers succeed iff the value fits, `f32` always
succeeds and rounds. Combined with `decodeBytesNat` this is
`LabJackDataValue::decode_bytes::<T>` for each `T` used by `from_bytes`. -/
def fromF64At (dt : LabJackDataType) (n : Nat) : Option LabJackDataValue :=
  match dt with
  | .Uint16 => if n < 65536 then some (.uint16 n) else none
  | .Uint32 => if n < 4294967296 then some (.uint32 n) else none
  | .Int32 => if n < 2147483648 then some (.int32 (n : Int)) else none
  | .Uint64 => if n < 18446744073709551616 then some (.uint64 n) else none
  | .Float32 => some (.float32 (f32FromNat n))
  | .Byte => if n < 256 then some (.byte n) else none
  | .String => some (.string (f32FromNat n))

/-- `LabJackDataValue::from_bytes` (`src/core/func.rs` lines 226-247).
For `Uint16 | Uint32 | Int32 | Float32 | Uint64` it runs
`decode_bytes::<T>` (yielding `DecodingError` when the byte length is not
2 or 4 or when the widened value does not fit `T`); the `Byte` and `String`
arms are `unimplemented` panics, modelled as the outer `none`. -/
def fromBytes (dataType : LabJackDataType) (bytes : List Nat) :
    Option (Except Error LabJackDataValue) :=
  match dataType with
  | .Byte => none
  | .String => none
  | dt =>
    match (decodeBytesNat bytes).bind (fromF64At dt) with
    | some v => some (.ok v)
    | none => some (.error (.invalidData .decodingError))

/-- The codec round-trip property exactly as the specification states it:
`decode(v.type(), v.bytes()) == v`, with a panic (`none`) on either side
breaking the property. -/
def specCodecRoundTrip (v : LabJackDataValue) : Prop :=
  (valueBytes v).bind (fromBytes v.type) = some (.ok v)

instance {α β : Type} [DecidableEq α] [DecidableEq β] :
    DecidableEq (Except α β) := fun a b =>
  match a, b with
  | .ok x, .ok y => decidable_of_iff (x = y) (by simp)
  | .error x, .error y => decidable_of_iff (x = y) (by simp)
  | .ok _, .error _ => isFalse (by simp)
  | .error _, .ok _ => isFalse (by simp)

instance (v : LabJackDataValue) : Decidable (specCodecRoundTrip v) := by
  unfold specCodecRoundTrip; infer_instance

/-! ## Registers (`src/core/data_types.rs`) and catalog entries -/

/-- `Register` from `src/core/data_types.rs` lines 127-133 (the
`default_value: Option<f64>` field is not read by any embedded operation
and is omitted). -/
structure Register where
  name : String
  address : Nat
  dataType : LabJackDataType
deriving DecidableEq, Repr

/-- Modelled from the spec: the generated register catalog (not under
`src/`) defines `PRODUCT_ID` at address 60000, a 2-word FLOAT32 register
(the unit test in `src/core/connection/discover.rs` pins address bytes
`0xEA 0x60` and width byte `2`). -/
def PRODUCT_ID : Register :=
  { name := "PRODUCT_ID", address := 60000, dataType := .Float32 }

/-- Modelled from the spec: the generated register catalog (not under
`src/`) defines `SERIAL_NUMBER` at address 60028, a 2-word UINT32
register. -/
def SERIAL_NUMBER : Register :=
  { name := "SERIAL_NUMBER", address := 60028, dataType := .Uint32 }

/-! ## Message compositor (`src/core/modbus/composite.rs`) -/

/-- `Header` from `src/core/modbus/composite.rs`. -/
structure Header where
  transactionId : Nat
  protocolId : Nat
  length : Nat
  unitId : Nat
deriving DecidableEq, Repr

/-- `Compositor` state: the mutable `transaction_id` and the fixed
`unit_id`. -/
structure Compositor where
  transactionId : Nat
  unitId : Nat
deriving DecidableEq, Repr

/-- `Compositor::new_tid`: wrapping increment of the `u16` transaction id,
returning the incremented value. -/
def Compositor.newTid (c : Compositor) : Nat := (c.transactionId + 1) % 65536

/-- `Header::new`: fresh transaction id, `protocol_id = MODBUS_PROTOCOL_TCP`
(`0x0000`), given length, compositor's unit id. -/
def Header.ofCompositor (c : Compositor) (len : Nat) : Header :=
  { transactionId := c.newTid, protocolId := 0, length := len,
    unitId := c.unitId }

/-- `Header::pack`: 7 MBAP bytes, big-endian `u16`s then the `u8` unit id. -/
def Header.pack (h : Header) : List Nat :=
  be16 h.transactionId ++ be16 h.protocolId ++ be16 h.length ++ [h.unitId % 256]

/-- `ComposedMessage` from `src/core/modbus/composite.rs`. -/
structure ComposedMessage where
  content : List Nat
  header : Header
  expectedBytes : Nat
deriving DecidableEq, Repr

/-- Body of `Compositor::compose_read` (`src/core/modbus/composite.rs`
lines 52-77) with the word size abstracted: the source computes
`word_size = function.0.data_type.size()` and then only uses that `u16`;
`fnCode` is `function.code()` (0x03 for a read). `MODBUS_MAX_PACKET_SIZE`
is 260. -/
def composeReadCore (c : Compositor) (fnCode addr wordSize : Nat) :
    Except Error ComposedMessage :=
  if wordSize < 1 then .error (.invalidData .recvBufferEmpty)
  else if 260 < wordSize then .error (.invalidData .unexpectedReplySize)
  else
    let header := Header.ofCompositor c 6
    .ok { content := header.pack ++ [fnCode] ++ be16 addr ++ be16 wordSize,
          header := header,
          expectedBytes := 2 * wordSize }

/-- `ReadFunction(reg)` (tuple struct; its declaration is generated-side and
not under `src/`). Modelled from the spec: a read request description whose
function code is 0x03. -/
structure ReadFunction where
  reg : Register
deriving DecidableEq, Repr

/-- Modelled from the spec: `ReadFunction::code` is `0x03` (read holding
registers). -/
def ReadFunction.code (_ : ReadFunction) : Nat := 3

/-- `Compositor::compose_read` on a register. -/
def composeRead (c : Compositor) (f : ReadFunction) :
    Except Error ComposedMessage :=
  composeReadCore c f.code f.reg.address f.reg.dataType.size

/-- `FeedbackFunction` sub-frames (`ReadRegister(reg)` /
`WriteRegister(reg, value)`; the enum declaration itself is not under
`src/` and is modelled from the spec). -/
inductive FeedbackFunction
  | readRegister (reg : Register)
  | writeRegister (reg : Register) (value : LabJackDataValue)
deriving DecidableEq, Repr

/-- Modelled from the spec: feedback sub-frame codes are 0x00 for a read
frame and 0x01 for a write frame. -/
def FeedbackFunction.code : FeedbackFunction → Nat
  | .readRegister _ => 0
  | .writeRegister _ _ => 1

/-- `FeedbackFunction::register`: the register of either sub-frame variant. -/
def FeedbackFunction.register : FeedbackFunction → Register
  | .readRegister reg => reg
  | .writeRegister reg _ => reg

/-- The fold of `Compositor::compose_feedback` (`src/core/modbus/composite.rs`
lines 118-126): accumulates `(composed_size, read_return_size)` starting
from `(2, 0)`; a read frame adds `BASE_FRAME_SIZE` (4) to the size and
`reg.data_type.size()` to the read return size, a write frame adds
`BASE_FRAME_SIZE + reg.data_type.size()` to the size. -/
def feedbackFold (fns : List FeedbackFunction) : Nat × Nat :=
  fns.foldl
    (fun acc f =>
      match f with
      | .readRegister reg => (acc.1 + 4, acc.2 + reg.dataType.size)
      | .writeRegister reg _ => (acc.1 + 4 + reg.dataType.size, acc.2))
    (2, 0)

/-- Per-frame bytes written by the loop of `compose_feedback` lines 133-146:
sub-code, big-endian address, width as `u8`, and for a write frame the
value bytes (a `String` value, which has no serializer, contributes the
empty panic placeholder; no claim exercises it). -/
def feedbackFrameBytes (f : FeedbackFunction) : List Nat :=
  [f.code] ++ be16 f.register.address ++ [f.register.dataType.size % 256] ++
    (match f with
     | .writeRegister _ v => (valueBytes v).getD []
     | .readRegister _ => [])

/-- `Compositor::compose_feedback` (`src/core/modbus/composite.rs`
lines 105-153): header length is `composed_size as u16`, the body is
`0x4C` followed by the sub-frames, and the expected reply size is
`7 + read_return_size`. -/
def composeFeedback (c : Compositor) (fns : List FeedbackFunction) :
    ComposedMessage :=
  let sizes := feedbackFold fns
  let header := Header.ofCompositor c (sizes.1 % 65536)
  { content := header.pack ++ [76] ++ fns.flatMap feedbackFrameBytes,
    header := header,
    expectedBytes := 7 + sizes.2 }

/-- The frame-size table exactly as the specification states it: 4 bytes for
a read frame, `4 + 2 * size_words(reg)` for a write frame. -/
def specFeedbackFrameSize : FeedbackFunction → Nat
  | .readRegister _ => 4
  | .writeRegister reg _ => 4 + 2 * reg.dataType.size

/-- The expected-reply formula exactly as the specification states it:
`7 + Σ 2 * size_words(reg)` over the read frames. -/
def specFeedbackExpected (fns : List FeedbackFunction) : Nat :=
  7 + (fns.map (fun f =>
        match f with
        | .readRegister reg => 2 * reg.dataType.size
        | .writeRegister _ _ => 0)).sum

/-- Code-side per-frame contribution to `composed_size` (read 4,
write `4 + size_words`). -/
def codeFeedbackFrameSize : FeedbackFunction → Nat
  | .readRegister _ => 4
  | .writeRegister reg _ => 4 + reg.dataType.size

/-- Code-side per-frame contribution to `read_return_size`. -/
def codeFeedbackReadSize : FeedbackFunction → Nat
  | .readRegister reg => reg.dataType.size
  | .writeRegister _ _ => 0

/-! ## Response validation (`src/core/modbus/transports/tcp.rs`) -/

/-- `TcpTransport::validate_response_header`
(`src/core/modbus/transports/tcp.rs` lines 149-155). -/
def validateResponseHeader (req resp : Header) : Except Error Unit :=
  if req.transactionId ≠ resp.transactionId ∨ resp.protocolId ≠ 0 then
    .error .invalidResponse
  else
    .ok ()

/-- `TcpTransport::validate_response_code`
(`src/core/modbus/transports/tcp.rs` lines 157-172). `req_code + 0x80` is
`u8` arithmetic, modelled with the wrap explicit. -/
def validateResponseCode (req res : List Nat) : Except Error Unit :=
  match req.get? 7 with
  | none => .error .invalidResponse
  | some reqCode =>
    match res.get? 7 with
    | none => .error .invalidResponse
    | some resCode =>
      if resCode = (reqCode + 128) % 256 then
        match res.get? 8 with
        | none => .error .invalidResponse
        | some exc =>
          match ExceptionCode.fromU8 exc with
          | some code => .error (.exception code)
          | none => .error .invalidResponse
      else if resCode = reqCode then .ok ()
      else .error .invalidResponse

/-! ## TCP transport call path (`src/core/modbus/transports/tcp.rs`) -/

/-- The observable steps of one `TcpTransport::read` / `write` call, in the
order the source performs them. `registerWaiter` is the
`Topic::add_observer` insertion done inside `Topic::wait_on`
(`src/queue/buffer.rs` lines 50-68). -/
inductive TcpStep
  | allocTid
  | lockWriter
  | sendRequest
  | registerWaiter
  | awaitReply
  | takeReply
  | validateHeader
  | validateCode
  | extractData
  | decodeValue
deriving DecidableEq, Repr

/-- Step sequence of `TcpTransport::read`
(`src/core/modbus/transports/tcp.rs` lines 208-230): compose (allocating
the TID), lock and send on the framed writer, then `topic.wait_on`
(which only then registers the observer), then validation and decoding. -/
def tcpReadSteps : List TcpStep :=
  [.allocTid, .lockWriter, .sendRequest, .registerWaiter, .awaitReply,
   .takeReply, .validateHeader, .validateCode, .extractData, .decodeValue]

/-- Step sequence of `TcpTransport::write`
(`src/core/modbus/transports/tcp.rs` lines 196-206). -/
def tcpWriteSteps : List TcpStep :=
  [.allocTid, .lockWriter, .sendRequest, .registerWaiter, .awaitReply,
   .takeReply, .validateHeader, .validateCode]

/-! ## Emulated transport (`src/core/modbus/transports/emulated.rs`) -/

/-- `WriteFunction` as consumed by the emulated transport
(`src/core/modbus/function.rs` lines 16-19). -/
inductive EmuWriteFunction
  | singleRegister (addr : Nat) (value : LabJackDataValue)
  | multipleRegisters (addr : Nat) (values : List LabJackDataValue)
deriving DecidableEq, Repr

/-- The emulated address map `address → EmulatedValue`; every stored
`EmulatedValue` is `transparent(base)` whose closure is the identity, so
only the `base` value is kept. Insertion shadows, as `HashMap::insert`
replaces. -/
def AddrMap := List (Nat × LabJackDataValue)

/-- `EmulatedTransport::write` (`src/core/modbus/transports/emulated.rs`
lines 44-57): insert the value at the address (or, for
`MultipleRegisters`, at consecutive addresses). -/
def emuWrite (m : AddrMap) (f : EmuWriteFunction) : AddrMap :=
  match f with
  | .singleRegister addr v => (addr, v) :: m
  | .multipleRegisters addr vs =>
    vs.enum.foldl (fun acc p => (addr + p.1, p.2) :: acc) m

/-- The byte image written for one stored value by the `match base` in
`EmulatedTransport::read` lines 72-77; the match only covers
`Uint16 | Uint32 | Float32 | Int32`, so any other stored variant is the
`none` (non-compiling/non-exhaustive) case. -/
def emuStoreBytes : LabJackDataValue → Option (List Nat)
  | .uint16 v => some (be16 v)
  | .uint32 v => some (be32 v)
  | .float32 bits => some (be32 bits)
  | .int32 v => some (be32 (int32ToU32 v))
  | _ => none

/-- `EmulatedTransport::read` (`src/core/modbus/transports/emulated.rs`
lines 59-86) for `HoldingRegisters(addr, quantity)`: each of the
`quantity` consecutive addresses is looked up, a missing address is
`EmulatedValue::floating()` whose base is `Uint16(0)`; `total` accumulates
`base.type().size()` and the bytes accumulate the big-endian image; the
result is `total as u8` followed by the bytes. -/
def emuRead (m : AddrMap) (addr quantity : Nat) : Option (List Nat) :=
  let step := fun (acc : Option (Nat × List Nat)) (q : Nat) =>
    acc.bind fun tb =>
      let base := ((m.lookup (addr + q)).getD (.uint16 0))
      (emuStoreBytes base).map fun bs => (tb.1 + base.type.size, tb.2 ++ bs)
  ((List.range quantity).foldl step (some (0, []))).map
    fun tb => tb.1 % 256 :: tb.2

/-- Reading a register on the emulated transport: the quantity is the
register width `reg.data_type.size()`. -/
def emuReadReg (m : AddrMap) (reg : Register) : Option (List Nat) :=
  emuRead m reg.address reg.dataType.size

/-- Modelled from the spec: the deterministic per-type default
(`floating(dt)`, a zero of the register's own type) that the spec says an
unwritten emulated address synthesizes; there is no zero `String` value. -/
def specTypeDefault : LabJackDataType → Option LabJackDataValue
  | .Uint16 => some (.uint16 0)
  | .Uint32 => some (.uint32 0)
  | .Int32 => some (.int32 0)
  | .Float32 => some (.float32 0)
  | .Uint64 => some (.uint64 0)
  | .Byte => some (.byte 0)
  | .String => none

/-- The reply frame that would carry exactly the value `v` and nothing else
under the emulated read's framing (leading word-count byte, then the
value's big-endian bytes): the spec's "read(reg) returns v, same type and
same value". -/
def specExactReadBytes (v : LabJackDataValue) : Option (List Nat) :=
  (valueBytes v).map fun bs => v.type.size % 256 :: bs

/-! ## Discovery (`src/core/connection/discover.rs`) -/

/-- `BROADCAST_IP` from `src/core/connection/discover.rs` line 16. -/
def BROADCAST_IP : String := "192.168.255.255"

/-- `MODBUS_FEEDBACK_PORT` from `src/core/connection/discover.rs` line 17. -/
def MODBUS_FEEDBACK_PORT : Nat := 52362

/-- `MODBUS_COMMUNICATION_PORT` from `src/core/connection/discover.rs`
line 18. -/
def MODBUS_COMMUNICATION_PORT : Nat := 502

/-- `DeviceType` from `src/core/sets/device_type.rs`. -/
inductive DeviceType
  | T4
  | T7
  | T8
  | TSERIES
  | DIGIT
  | ANY
  | EMULATED (v : Int)
  | UNKNOWN (v : Int)
deriving DecidableEq, Repr

/-- `ConnectionType` from `src/core/sets/connection_type.rs`. -/
inductive ConnectionType
  | USB
  | ETHERNET
  | WIFI
  | ANY
  | UNKNOWN (v : Int)
deriving DecidableEq, Repr

/-- `LabJackDevice` from `src/core/device.rs` (the IP address is opaque to
the embedded logic and carried as a string; the serial number is the `i32`
payload of `LabJackSerialNumber`). -/
structure LabJackDevice where
  deviceType : DeviceType
  connectionType : ConnectionType
  ipAddress : String
  serialNumber : Int
  port : Nat
deriving DecidableEq, Repr

/-- The feedback request composed by `Discover::search_all`
(`src/core/connection/discover.rs` lines 50-60): transaction id state 0,
unit id 1, one read frame for `PRODUCT_ID` and one for `SERIAL_NUMBER`. -/
def discoverRequest : ComposedMessage :=
  composeFeedback { transactionId := 0, unitId := 1 }
    [.readRegister PRODUCT_ID, .readRegister SERIAL_NUMBER]

/-- Destination of the discovery datagram:
`(BROADCAST_IP, MODBUS_FEEDBACK_PORT)`. -/
def discoverDestination : String × Nat := (BROADCAST_IP, MODBUS_FEEDBACK_PORT)

/-- The receive buffer after `recv_from` on a fixed-size buffer of
`bufLen` zero bytes: the datagram is truncated to the buffer, the unfilled
tail keeps its zeros. -/
def recvFill (bufLen : Nat) (datagram : List Nat) : List Nat :=
  datagram.take bufLen ++ List.replicate (bufLen - datagram.length) 0

/-- Device-type decoding from `buf.get(8..12)`
(`src/core/connection/discover.rs` lines 72-84): the three known big-endian
patterns, any other four bytes as `UNKNOWN(i32)`, and an absent range as
`UNKNOWN(0)`. -/
def decodeDeviceType (buf : List Nat) : DeviceType :=
  match listSlice buf 8 12 with
  | some [65, 0, 0, 0] => .T8
  | some [64, 224, 0, 0] => .T7
  | some [64, 128, 0, 0] => .T4
  | some [a, b, c, d] => .UNKNOWN (i32FromBeBytes a b c d)
  | _ => .UNKNOWN 0

/-- Serial-number decoding from `buf.get(12..16)`
(`src/core/connection/discover.rs` lines 86-96): big-endian `i32`, or 0
when the range is absent. -/
def decodeSerialNumber (buf : List Nat) : Int :=
  match listSlice buf 12 16 with
  | some [a, b, c, d] => i32FromBeBytes a b c d
  | _ => 0

/-- Outcome of one `recv_from` call on the discovery socket. -/
inductive RecvOutcome
  | ok (datagram : List Nat) (srcIp : String) (srcPort : Nat)
  | wouldBlock
  | ioError
deriving DecidableEq, Repr

/-- One step of the iterator returned by `Discover::search_all`
(`src/core/connection/discover.rs` lines 64-110): on a received datagram
(read into a buffer of `expectedBytes` zeros) it yields
`Ok(LabJackDevice)` with the decoded device type and serial number,
source address, and `ConnectionType::ETHERNET`; `WouldBlock` ends the
iteration; any other I/O error yields an `Err` item. -/
def searchAllStep (expectedBytes : Nat) (r : RecvOutcome) :
    Option (Except Error LabJackDevice) :=
  match r with
  | .ok datagram srcIp srcPort =>
    let buf := recvFill expectedBytes datagram
    some (.ok
      { deviceType := decodeDeviceType buf,
        connectionType := .ETHERNET,
        ipAddress := srcIp,
        serialNumber := decodeSerialNumber buf,
        port := srcPort })
  | .wouldBlock => none
  | .ioError => some (.error .io)

/-! ## Helper lemmas -/

theorem decodeBytesNat_be16 (n : Nat) :
    decodeBytesNat (be16 n) = some (n % 65536) := by
  simp only [be16, decodeBytesNat, Option.some.injEq]
  omega

theorem decodeBytesNat_be32 (n : Nat) :
    decodeBytesNat (be32 n) = some (n % 4294967296) := by
  simp only [be32, decodeBytesNat, Option.some.injEq]
  omega

theorem feedbackFold_go (fns : List FeedbackFunction) (a b : Nat) :
    fns.foldl
      (fun acc f =>
        match f with
        | .readRegister reg => (acc.1 + 4, acc.2 + reg.dataType.size)
        | .writeRegister reg _ => (acc.1 + 4 + reg.dataType.size, acc.2))
      (a, b) =
    (a + (fns.map codeFeedbackFrameSize).sum,
     b + (fns.map codeFeedbackReadSize).sum) := by
  induction fns generalizing a b with
  | nil => simp
  | cons f rest ih =>
    cases f with
    | readRegister reg =>
      simp only [List.foldl_cons, List.map_cons, List.sum_cons, ih,
        codeFeedbackFrameSize, codeFeedbackReadSize, Prod.mk.injEq]
      omega
    | writeRegister reg v =>
      simp only [List.foldl_cons, List.map_cons, List.sum_cons, ih,
        codeFeedbackFrameSize, codeFeedbackReadSize, Prod.mk.injEq]
      omega

theorem feedbackFold_fst (fns : List FeedbackFunction) :
    (feedbackFold fns).1 = 2 + (fns.map codeFeedbackFrameSize).sum := by
  simp [feedbackFold, feedbackFold_go]

theorem feedbackFold_snd (fns : List FeedbackFunction) :
    (feedbackFold fns).2 = (fns.map codeFeedbackReadSize).sum := by
  simp [feedbackFold, feedbackFold_go]

theorem recvFill_length (n : Nat) (d : List Nat) :
    (recvFill n d).length = n := by
  simp only [recvFill, List.length_append, List.length_take,
    List.length_replicate]
  omega

theorem listSlice_none_of_long (l : List Nat) (i j : Nat) (h : l.length < j) :
    listSlice l i j = none := by
  simp only [listSlice, ite_eq_right_iff]
  omega

/-! ## Claim theorems -/

/-- C1, counterexample: the round-trip `decode(v.type(), v.bytes()) == v`
fails at `v = Uint64(0)`: `bytes()` serializes eight bytes, but
`decode_bytes` only accepts lengths 2 and 4, so decoding yields
`InvalidData(DecodingError)` instead of the value. -/
theorem c1_roundtrip_counterexample :
    ¬ specCodecRoundTrip (.uint64 0) := by decide

/-- C1 (amended): the codec round-trip holds exactly for `Uint16`, `Uint32`,
and nonnegative `Int32` values. It fails with `InvalidData(DecodingError)`
for `Uint64` (eight-byte input is unsupported by `decode_bytes`) and for
negative `Int32` values (whose two's complement image exceeds `i32::MAX`
after the `f64` widening); `from_bytes` panics on `Byte`; and for `Float32`
the four bytes are decoded as the numeric value of the big-endian `u32`
cast to `f32` (`f32FromNat`) rather than reinterpreted as IEEE-754 bits,
so the round-trip fails for floats in general; the `String` variant has no
serializer at all. -/
theorem c1_roundtrip_cases (v : LabJackDataValue) :
    match v with
    | .uint16 n => n < 65536 →
        (valueBytes v).bind (fromBytes v.type) = some (.ok v)
    | .uint32 n => n < 4294967296 →
        (valueBytes v).bind (fromBytes v.type) = some (.ok v)
    | .int32 x =>
        (0 ≤ x → x < 2147483648 →
          (valueBytes v).bind (fromBytes v.type) = some (.ok v)) ∧
        (x < 0 → -2147483648 ≤ x →
          (valueBytes v).bind (fromBytes v.type) =
            some (.error (.invalidData .decodingError)))
    | .uint64 n => n < 18446744073709551616 →
        (valueBytes v).bind (fromBytes v.type) =
          some (.error (.invalidData .decodingError))
    | .float32 bits => bits < 4294967296 →
        (valueBytes v).bind (fromBytes v.type) =
          some (.ok (.float32 (f32FromNat bits)))
    | .byte n => n < 256 → (valueBytes v).bind (fromBytes v.type) = none
    | .string _ => valueBytes v = none := by
  cases v with
  | uint16 n =>
    intro h
    simp [valueBytes, LabJackDataValue.type, fromBytes, decodeBytesNat_be16,
      fromF64At, Nat.mod_eq_of_lt h, h]
  | uint32 n =>
    intro h
    simp [valueBytes, LabJackDataValue.type, fromBytes, decodeBytesNat_be32,
      fromF64At, Nat.mod_eq_of_lt h, h]
  | int32 x =>
    constructor
    · intro h0 h1
      have hmod : x % 4294967296 = x := by omega
      have htn : ((x % 4294967296).toNat : Int) = x := by omega
      have hlt : (x % 4294967296).toNat < 2147483648 := by omega
      simp [valueBytes, LabJackDataValue.type, fromBytes, int32ToU32,
        decodeBytesNat_be32, fromF64At, Nat.mod_eq_of_lt (by omega :
          (x % 4294967296).toNat < 4294967296), hlt, htn]
    · intro h0 h1
      have hge : ¬ (x % 4294967296).toNat < 2147483648 := by omega
      simp [valueBytes, LabJackDataValue.type, fromBytes, int32ToU32,
        decodeBytesNat_be32, fromF64At, Nat.mod_eq_of_lt (by omega :
          (x % 4294967296).toNat < 4294967296), hge]
  | uint64 n =>
    intro h
    simp [valueBytes, LabJackDataValue.type, fromBytes, be64, decodeBytesNat]
  | float32 bits =>
    intro h
    simp [valueBytes, LabJackDataValue.type, fromBytes, decodeBytesNat_be32,
      fromF64At, Nat.mod_eq_of_lt h]
  | byte n =>
    intro h
    simp [valueBytes, LabJackDataValue.type, fromBytes]
  | string bits => rfl

/-- C1, witness: the amended round-trip at `Uint16(42)` and at
`Float32` with the bits of `1.0f32` (`0x3F800000`), where the decoded bit
pattern is that of `1065353216.0f32` (`0x4E7E0000`), not the original. -/
theorem c1_roundtrip_cases_witness :
    (valueBytes (.uint16 42)).bind
        (fromBytes (LabJackDataValue.type (.uint16 42))) =
      some (.ok (.uint16 42)) ∧
    (valueBytes (.float32 1065353216)).bind
        (fromBytes (LabJackDataValue.type (.float32 1065353216))) =
      some (.ok (.float32 (f32FromNat 1065353216))) ∧
    f32FromNat 1065353216 = 1316880384 ∧ (1316880384 : Nat) ≠ 1065353216 :=
  ⟨c1_roundtrip_cases (.uint16 42) (by decide),
   c1_roundtrip_cases (.float32 1065353216) (by decide),
   by decide, by decide⟩

/-- C2: the word counts returned by `LabJackDataType::size` agree with the
table for U16, U32, I32, F32, but return 2 for both Uint64 and Byte,
contradicting the table and the build-time `size_of` in `build.rs`
(which yields 4 for Uint64 and 1 for Byte). -/
theorem c2_size_table :
    LabJackDataType.size .Uint16 = 1 ∧
    LabJackDataType.size .Uint32 = 2 ∧
    LabJackDataType.size .Int32 = 2 ∧
    LabJackDataType.size .Float32 = 2 ∧
    LabJackDataType.size .Uint64 = 2 ∧
    LabJackDataType.size .Byte = 2 ∧
    buildSizeOf "Uint16" = some 1 ∧
    buildSizeOf "Uint32" = some 2 ∧
    buildSizeOf "Int32" = some 2 ∧
    buildSizeOf "Float32" = some 2 ∧
    buildSizeOf "Uint64" = some 4 ∧
    buildSizeOf "Byte" = some 1 := by decide

/-- C3, counterexample: for a single WriteFrame of a 2-word (Float32)
register, `compose_feedback` writes length `2 + 4 + 2 = 8`, while the
claimed formula `2 + (4 + 2·size_words)` gives 10. -/
theorem c3_length_counterexample :
    (composeFeedback { transactionId := 0, unitId := 1 }
        [.writeRegister { name := "AIN56", address := 112,
                          dataType := .Float32 }
          (.float32 1097859072)]).header.length = 8 ∧
    2 + ([FeedbackFunction.writeRegister
            { name := "AIN56", address := 112, dataType := .Float32 }
            (.float32 1097859072)].map specFeedbackFrameSize).sum = 10 ∧
    (8 : Nat) ≠ 10 := by decide

/-- C3 (amended): `compose_feedback` sets the outer MBAP length to
`(2 + Σ frame_size) % 2 ^ 16`, where a ReadFrame contributes 4 bytes and a
WriteFrame of a register with `n = size_words(reg)` contributes `4 + n`
bytes (not `4 + 2·n`). -/
theorem c3_feedback_length (c : Compositor) (fns : List FeedbackFunction) :
    (composeFeedback c fns).header.length =
      (2 + (fns.map codeFeedbackFrameSize).sum) % 65536 := by
  simp [composeFeedback, Header.ofCompositor, feedbackFold_fst]

/-- C4, counterexample: for a single ReadFrame of the 2-word PRODUCT_ID
register, `compose_feedback` computes `expected_bytes = 7 + 2 = 9`, while
the claimed formula `7 + 2·size_words` gives 11. -/
theorem c4_expected_counterexample :
    (composeFeedback { transactionId := 0, unitId := 1 }
        [.readRegister PRODUCT_ID]).expectedBytes = 9 ∧
    specFeedbackExpected [.readRegister PRODUCT_ID] = 11 ∧
    (9 : Nat) ≠ 11 := by decide

/-- C4 (amended): the expected reply byte count computed by
`compose_feedback` is `7` plus the sum over all ReadFrames of
`size_words(reg)` (not `2·size_words`); WriteFrames contribute nothing. -/
theorem c4_feedback_expected (c : Compositor) (fns : List FeedbackFunction) :
    (composeFeedback c fns).expectedBytes =
      7 + (fns.map codeFeedbackReadSize).sum := by
  simp [composeFeedback, feedbackFold_snd]

/-- C5: discovery composes the Feedback request
`[ReadFrame(PRODUCT_ID), ReadFrame(SERIAL_NUMBER)]` with transaction id 1
and unit id 1 and sends it to UDP port 52362 — but the destination address
is the constant `BROADCAST_IP = "192.168.255.255"`, not the
`255.255.255.255` the specification mandates. -/
theorem c5_discovery_request :
    discoverRequest.content =
      [0, 1, 0, 0, 0, 10, 1, 76, 0, 234, 96, 2, 0, 234, 124, 2] ∧
    discoverRequest.header.transactionId = 1 ∧
    discoverRequest.header.unitId = 1 ∧
    discoverDestination.2 = 52362 ∧
    discoverDestination.1 = BROADCAST_IP ∧
    BROADCAST_IP ≠ "255.255.255.255" := by decide

/-- C6: for `1 ≤ size_words ≤ 260` (the source reads
`word_size = reg.data_type.size()`), `compose_read` succeeds and emits
exactly the 12-byte request
`[TID:u16 BE][0x0000][0x0006][0x01][0x03][addr:u16 BE][size_words:u16 BE]`
with expected reply size `2·size_words`, where TID is the wrapping
increment of the compositor's transaction id; `size_words < 1` fails with
`InvalidData(RecvBufferEmpty)` and `size_words > 260` with
`InvalidData(UnexpectedReplySize)`. -/
theorem c6_compose_read (tid addr w : Nat)
    (htid : tid < 65536) (haddr : addr < 65536) (hw : w < 65536) :
    (1 ≤ w → w ≤ 260 →
      composeReadCore { transactionId := tid, unitId := 1 } 3 addr w =
        .ok { content := be16 ((tid + 1) % 65536) ++ [0, 0] ++ [0, 6] ++
                [1] ++ [3] ++ be16 addr ++ be16 w,
              header := { transactionId := (tid + 1) % 65536,
                          protocolId := 0, length := 6, unitId := 1 },
              expectedBytes := 2 * w } ∧
      (be16 ((tid + 1) % 65536) ++ [0, 0] ++ [0, 6] ++ [1] ++ [3] ++
        be16 addr ++ be16 w).length = 12) ∧
    (w < 1 →
      composeReadCore { transactionId := tid, unitId := 1 } 3 addr w =
        .error (.invalidData .recvBufferEmpty)) ∧
    (260 < w →
      composeReadCore { transactionId := tid, unitId := 1 } 3 addr w =
        .error (.invalidData .unexpectedReplySize)) := by
  refine ⟨fun h1 h2 => ?_, fun h0 => ?_, fun h261 => ?_⟩
  · have hok : composeReadCore { transactionId := tid, unitId := 1 } 3 addr w =
        .ok { content := be16 ((tid + 1) % 65536) ++ [0, 0] ++ [0, 6] ++
                [1] ++ [3] ++ be16 addr ++ be16 w,
              header := { transactionId := (tid + 1) % 65536,
                          protocolId := 0, length := 6, unitId := 1 },
              expectedBytes := 2 * w } := by
      rw [composeReadCore, if_neg (by omega), if_neg (by omega)]
      simp [Header.ofCompositor, Header.pack, Compositor.newTid, be16]
    exact ⟨hok, by simp [be16]⟩
  · rw [composeReadCore, if_pos (by omega)]
  · rw [composeReadCore, if_neg (by omega), if_pos (by omega)]

/-- C6, witness: the specification's scenario 1 — reading a 1-word register
at address `0x07D0` with transaction id state 1 yields the request
`00 02 00 00 00 06 01 03 07 D0 00 01`, and word sizes 0 and 261 fail. -/
theorem c6_compose_read_witness :
    composeReadCore { transactionId := 1, unitId := 1 } 3 2000 1 =
      .ok { content := [0, 2, 0, 0, 0, 6, 1, 3, 7, 208, 0, 1],
            header := { transactionId := 2, protocolId := 0, length := 6,
                        unitId := 1 },
            expectedBytes := 2 } ∧
    composeReadCore { transactionId := 1, unitId := 1 } 3 2000 0 =
      .error (.invalidData .recvBufferEmpty) ∧
    composeReadCore { transactionId := 1, unitId := 1 } 3 2000 261 =
      .error (.invalidData .unexpectedReplySize) := by
  refine ⟨?_, ?_, ?_⟩
  · have h := ((c6_compose_read 1 2000 1 (by decide) (by decide)
      (by decide)).1 (by decide) (by decide)).1
    rw [h]; decide
  · exact (c6_compose_read 1 2000 0 (by decide) (by decide)
      (by decide)).2.1 (by decide)
  · exact (c6_compose_read 1 2000 261 (by decide) (by decide)
      (by decide)).2.2 (by decide)

/-- C7: response validation fails with `InvalidResponse` on a transaction-id
mismatch or a non-zero protocol id, and succeeds otherwise; when response
byte 7 is request byte 7 plus `0x80` (u8 wrap), the exception code is taken
from response byte 8 via the `ExceptionCode` table (yielding
`Exception(code)` inside `0x01..0x0B` and `InvalidResponse` outside it);
validation succeeds only when response byte 7 equals the request function
code and fails with `InvalidResponse` on any other function byte. -/
theorem c7_response_validation (reqH respH : Header) (req res : List Nat)
    (reqCode resCode : Nat)
    (hreq : req.get? 7 = some reqCode) (hres : res.get? 7 = some resCode) :
    ((reqH.transactionId ≠ respH.transactionId ∨ respH.protocolId ≠ 0) →
      validateResponseHeader reqH respH = .error .invalidResponse) ∧
    (reqH.transactionId = respH.transactionId → respH.protocolId = 0 →
      validateResponseHeader reqH respH = .ok ()) ∧
    (resCode = (reqCode + 128) % 256 →
      ∀ exc code, res.get? 8 = some exc →
        ExceptionCode.fromU8 exc = some code →
        validateResponseCode req res = .error (.exception code)) ∧
    (resCode = (reqCode + 128) % 256 →
      ∀ exc, res.get? 8 = some exc → ExceptionCode.fromU8 exc = none →
        validateResponseCode req res = .error .invalidResponse) ∧
    (resCode ≠ (reqCode + 128) % 256 → resCode = reqCode →
      validateResponseCode req res = .ok ()) ∧
    (resCode ≠ (reqCode + 128) % 256 → resCode ≠ reqCode →
      validateResponseCode req res = .error .invalidResponse) ∧
    (∀ n : Nat, (ExceptionCode.fromU8 n).isSome ↔ 1 ≤ n ∧ n ≤ 11) := by
  refine ⟨?_, ?_, ?_, ?_, ?_, ?_, ?_⟩
  · intro h
    simp only [validateResponseHeader]
    rw [if_pos h]
  · intro h1 h2
    simp only [validateResponseHeader]
    rw [if_neg (by simp [h1, h2])]
  · intro h exc code hexc hcode
    simp only [validateResponseCode, hreq, hres, hexc, hcode]
    rw [if_pos h]
  · intro h exc hexc hcode
    simp only [validateResponseCode, hreq, hres, hexc, hcode]
    rw [if_pos h]
  · intro h1 h2
    simp only [validateResponseCode, hreq, hres]
    rw [if_neg h1, if_pos h2]
  · intro h1 h2
    simp only [validateResponseCode, hreq, hres]
    rw [if_neg h1, if_neg h2]
  · intro n
    have hbig : ∀ m : Nat, ExceptionCode.fromU8 (m + 12) = none :=
      fun m => rfl
    rcases Nat.lt_or_ge n 12 with hlt | hge
    · interval_cases n <;> decide
    · have heq : n = (n - 12) + 12 := by omega
      rw [heq, hbig]
      simp only [Option.isSome_none, Bool.false_eq_true, false_iff]
      omega

/-- C7, witness: the specification's exception scenario — a reply whose
function byte is `0x83` (`0x03 + 0x80`) and exception byte `0x02` yields
`Exception(IllegalDataAddress)`; a matching header passes and a
transaction-id mismatch fails. -/
theorem c7_response_validation_witness :
    validateResponseHeader
        { transactionId := 2, protocolId := 0, length := 6, unitId := 1 }
        { transactionId := 3, protocolId := 0, length := 3, unitId := 1 } =
      .error .invalidResponse ∧
    validateResponseHeader
        { transactionId := 2, protocolId := 0, length := 6, unitId := 1 }
        { transactionId := 2, protocolId := 0, length := 3, unitId := 1 } =
      .ok () ∧
    validateResponseCode [0, 2, 0, 0, 0, 6, 1, 3, 0, 0, 0, 1]
        [0, 2, 0, 0, 0, 3, 1, 131, 2] =
      .error (.exception .illegalDataAddress) := by
  have h := c7_response_validation
    { transactionId := 2, protocolId := 0, length := 6, unitId := 1 }
    { transactionId := 3, protocolId := 0, length := 3, unitId := 1 }
    [0, 2, 0, 0, 0, 6, 1, 3, 0, 0, 0, 1] [0, 2, 0, 0, 0, 3, 1, 131, 2]
    3 131 (by decide) (by decide)
  have h2 := c7_response_validation
    { transactionId := 2, protocolId := 0, length := 6, unitId := 1 }
    { transactionId := 2, protocolId := 0, length := 3, unitId := 1 }
    [0, 2, 0, 0, 0, 6, 1, 3, 0, 0, 0, 1] [0, 2, 0, 0, 0, 3, 1, 131, 2]
    3 131 (by decide) (by decide)
  exact ⟨h.1 (Or.inl (by decide)), h2.2.1 rfl rfl,
    h.2.2.1 (by decide) 2 .illegalDataAddress (by decide) (by decide)⟩

/-- C8, counterexample: writing `Float32(15.0)` (bits `0x41700000`) to a
2-word register and reading it back yields the word count 3 and the four
value bytes padded with a floating `Uint16(0)` word — not a frame carrying
exactly the written value. -/
theorem c8_write_read_counterexample :
    emuReadReg
        (emuWrite [] (.singleRegister 110 (.float32 1097859072)))
        { name := "AIN56", address := 110, dataType := .Float32 } =
      some [3, 65, 112, 0, 0, 0, 0] ∧
    specExactReadBytes (.float32 1097859072) = some [2, 65, 112, 0, 0] ∧
    emuReadReg
        (emuWrite [] (.singleRegister 110 (.float32 1097859072)))
        { name := "AIN56", address := 110, dataType := .Float32 } ≠
      specExactReadBytes (.float32 1097859072) := by decide

/-- C8 (amended): on the emulated transport, after `write(reg, v)` a read of
a 1-word (`Uint16`) register returns exactly the frame carrying `v`; for a
2-word register the read returns word count 3 and `v`'s bytes padded with
one `Uint16(0)` word, because the write occupies only the base address and
each further word is synthesized as the fixed floating value `Uint16(0)`;
a stored `Uint64`/`Byte`/`String` value is not covered by the read's value
match at all. A read of a never-written register never fails and yields
one `Uint16(0)` word per register word — the fixed floating default, not
the register's own type default. -/
theorem c8_emulated_write_read (addr : Nat) (v : LabJackDataValue) :
    (match v with
     | .uint16 _ =>
        emuReadReg (emuWrite [] (.singleRegister addr v))
            { name := "R", address := addr, dataType := v.type } =
          specExactReadBytes v
     | .uint32 _ | .int32 _ | .float32 _ =>
        emuReadReg (emuWrite [] (.singleRegister addr v))
            { name := "R", address := addr, dataType := v.type } =
          some (3 :: ((valueBytes v).getD [] ++ [0, 0]))
     | _ =>
        emuReadReg (emuWrite [] (.singleRegister addr v))
            { name := "R", address := addr, dataType := v.type } = none) ∧
    (∀ dt : LabJackDataType,
      emuReadReg [] { name := "R", address := addr, dataType := dt } =
        some (dt.size % 256 :: List.replicate (2 * dt.size) 0)) := by
  have hr1 : List.range 1 = [0] := rfl
  have hr2 : List.range 2 = [0, 1] := rfl
  have hbe : ((addr + 1 : Nat) == addr) = false :=
    beq_eq_false_iff_ne.mpr (by omega)
  constructor
  · cases v <;>
      simp [emuReadReg, emuWrite, emuRead, hr1, hr2, List.lookup, hbe,
        emuStoreBytes, specExactReadBytes, valueBytes,
        LabJackDataValue.type, LabJackDataType.size, be16]
  · intro dt
    cases dt <;>
      simp [emuReadReg, emuRead, hr1, hr2, List.lookup, emuStoreBytes,
        LabJackDataValue.type, LabJackDataType.size, be16,
        List.replicate_succ]

/-- C8, witness: the amended statement at a written `Uint16(7)` register and
at an unwritten `Float32` register. -/
theorem c8_emulated_write_read_witness :
    emuReadReg (emuWrite [] (.singleRegister 110 (.uint16 7)))
        { name := "R", address := 110, dataType := .Uint16 } =
      some [1, 0, 7] ∧
    emuReadReg [] { name := "R", address := 110, dataType := .Float32 } =
      some [2, 0, 0, 0, 0] := by
  have h := c8_emulated_write_read 110 (.uint16 7)
  exact ⟨h.1.trans (by decide), (h.2 .Float32).trans (by decide)⟩

/-- C9: in the call paths of both `TcpTransport::read` and
`TcpTransport::write`, the request bytes are sent on the framed writer
strictly before `Topic::wait_on` registers the waiter for the allocated
transaction id — the opposite of the claimed order, so a reply arriving
immediately after the send finds no registered observer. -/
theorem c9_waiter_after_send :
    tcpReadSteps.indexOf .sendRequest < tcpReadSteps.indexOf .registerWaiter ∧
    tcpWriteSteps.indexOf .sendRequest <
      tcpWriteSteps.indexOf .registerWaiter := by decide

/-- C10: every received discovery datagram — in particular any datagram
shorter than 16 bytes — yields an `Ok(LabJackDevice)` item with
`UNKNOWN(0)` device type, serial number 0, the datagram's source address,
and `ConnectionType::ETHERNET` (the receive buffer has only
`expected_bytes = 11` bytes, so the ranges `[8..12]` and `[12..16]` are
always absent); `WouldBlock` ends the iteration and any other I/O error
yields an `Err` item. -/
theorem c10_short_datagram (d : List Nat) (ip : String) (port : Nat)
    (hshort : d.length < 16) :
    searchAllStep discoverRequest.expectedBytes (.ok d ip port) =
      some (.ok { deviceType := .UNKNOWN 0, connectionType := .ETHERNET,
                  ipAddress := ip, serialNumber := 0, port := port }) ∧
    searchAllStep discoverRequest.expectedBytes .wouldBlock = none ∧
    searchAllStep discoverRequest.expectedBytes .ioError =
      some (.error .io) := by
  have hE : discoverRequest.expectedBytes = 11 := rfl
  refine ⟨?_, rfl, rfl⟩
  have hlen : (recvFill 11 d).length = 11 := recvFill_length 11 d
  have h1 : decodeDeviceType (recvFill 11 d) = .UNKNOWN 0 := by
    unfold decodeDeviceType
    rw [listSlice_none_of_long _ _ _ (by omega)]
  have h2 : decodeSerialNumber (recvFill 11 d) = 0 := by
    unfold decodeSerialNumber
    rw [listSlice_none_of_long _ _ _ (by omega)]
  simp [searchAllStep, hE, h1, h2]

/-- C10, witness: a 3-byte datagram from `10.1.1.1:7` yields the default
device item. -/
theorem c10_short_datagram_witness :
    searchAllStep discoverRequest.expectedBytes (.ok [1, 2, 3] "10.1.1.1" 7) =
      some (.ok { deviceType := .UNKNOWN 0, connectionType := .ETHERNET,
                  ipAddress := "10.1.1.1", serialNumber := 0, port := 7 }) :=
  (c10_short_datagram [1, 2, 3] "10.1.1.1" 7 (by decide)).1

end Labjack
